import Mathlib

/-!
Verification of the `nats_request_reply` processor
(`internal/impl/nats/processor_request_reply.go`).

The development shallowly embeds the processor: pipeline records, the
processor state, construction (`newRequestReplyProcessor`), per-record
processing (`Process`) and shutdown (`Close`).  External collaborators
(the nats client library, the Go time package, and the repository's
reply converter living in a different source file) are modelled from
their documented behaviour and marked as such in their doc comments.
Times and durations are nanosecond counts (Go `time.Duration`),
represented as `Int`.
-/

/-- A pipeline record: payload bytes plus metadata key/value pairs
(`service.Message` as the spec's data model describes it: payload +
metadata; serialisation to bytes is the identity on the payload). -/
structure Message where
  data : List Nat
  metadata : List (String × String)

/-- A templated string (`service.InterpolatedString`): evaluation against a
record yields a string or an evaluation error. -/
def InterpolatedString : Type := Message → Except String String

/-- `TryString` evaluates the template against a record
(`service.InterpolatedString.TryString`). -/
def InterpolatedString.TryString (t : InterpolatedString) (m : Message) :
    Except String String := t m

/-- A metadata filter predicate (`service.MetadataFilter`): decides which
metadata keys are selected. -/
def MetadataFilter : Type := String → Bool

/-- `metaFilterWalk` models `(*service.MetadataFilter).Walk` collecting the
visited key/value pairs: a nil filter (`none`) walks nothing, otherwise the
record's metadata entries whose key passes the filter are visited in order. -/
def metaFilterWalk (f : Option MetadataFilter) (m : Message) :
    List (String × String) :=
  match f with
  | none => []
  | some p => m.metadata.filter fun kv => p kv.1

/-- Delivery metadata a broker reply may carry (stream sequence, consumer
sequence, delivery count, pending count, origin domain, receipt timestamp). -/
structure DeliveryInfo where
  streamSeq : Nat
  consumerSeq : Nat
  numDelivered : Nat
  numPending : Nat
  domain : String
  timestampUnixNano : Nat

/-- A broker message (`nats.Msg`): subject, payload, an ordered list of
header-add events (each `Header.Add` call appends one key/value pair), and
the delivery information a reply may carry. -/
structure NatsMsg where
  subject : String
  data : List Nat
  header : List (String × String)
  delivery : Option DeliveryInfo

/-- Errors surfaced by the processor.  `str` carries a generic collaborator
error (template evaluation, construction), `headerInterpolation` is the
wrap `fmt.Errorf("header %v interpolation error: %w", k, err)`,
`badSubject` is the nats client's `ErrBadSubject`, `deadlineExceeded`
covers the context/timeout error of the request call, and `connection` a
transport failure. -/
inductive GoError where
  | str (msg : String)
  | headerInterpolation (name : String) (inner : String)
  | badSubject
  | deadlineExceeded
  | connection (msg : String)

/-- How the broker environment reacts to one outbound request: a reply
arriving `t` nanoseconds after the call starts, no reply at all, or a
transport failure. -/
inductive ReqOutcome where
  | replyAt (t : Nat) (reply : NatsMsg)
  | silent
  | connErr (msg : String)

/-- A live broker connection (`*nats.Conn`): whether the connected server
supports headers, and the broker environment's reaction to each request. -/
structure NatsConn where
  headersSupported : Bool
  behavior : NatsMsg → ReqOutcome

/-- Modelled from the nats client library: `RequestMsgWithContext` on a
non-nil connection first validates the subject — an empty subject is
rejected with `ErrBadSubject` inside `publish`, before anything reaches the
wire — then delivers the message and waits; a reply arriving strictly
before the deadline is returned, otherwise the deadline-bound context
surfaces a timeout, and transport failures are returned as-is.  The first
component records the message actually delivered to the broker (`none`
when nothing was sent). -/
def requestMsgWithContext (conn : NatsConn) (deadline : Int) (m : NatsMsg) :
    Option NatsMsg × Except GoError NatsMsg :=
  if m.subject = "" then (none, .error .badSubject)
  else
    match conn.behavior m with
    | .replyAt t reply =>
        if (t : Int) < deadline then (some m, .ok reply)
        else (some m, .error .deadlineExceeded)
    | .silent => (some m, .error .deadlineExceeded)
    | .connErr e => (some m, .error (.connection e))

/-- The deadline of `context.WithTimeout(ctx, timeout)` relative to the
call's start: the configured timeout, intersected with the incoming
context's remaining time when it has one. -/
def deriveDeadline (ctxRemaining : Option Int) (timeout : Int) : Int :=
  match ctxRemaining with
  | none => timeout
  | some rem => min rem timeout

/-- Modelled from the spec: the repository's reply converter
(`convertMessage`, defined in a nats source file outside the provided
sources).  Per §4.5 the output record's body is the reply payload and its
metadata names the source subject plus, when present, the delivery fields
(stream sequence, consumer sequence, delivery count, pending count, origin
domain, receipt timestamp in nanosecond Unix time). -/
def deliveryMetadata : Option DeliveryInfo → List (String × String)
  | none => []
  | some d =>
      [("nats_sequence_stream", toString d.streamSeq),
       ("nats_sequence_consumer", toString d.consumerSeq),
       ("nats_num_delivered", toString d.numDelivered),
       ("nats_num_pending", toString d.numPending),
       ("nats_domain", d.domain),
       ("nats_timestamp_unix_nano", toString d.timestampUnixNano)]

/-- Modelled from the spec: the record produced from a broker reply —
body equal to the reply payload, metadata listing the subject and the
present delivery fields (§4.5). -/
def convertedRecord (m : NatsMsg) : Message :=
  { data := m.data
    metadata := ("nats_subject", m.subject) :: deliveryMetadata m.delivery }

/-- Modelled from the spec: `convertMessage` fails only when constructing
the record from bytes fails (§4.5); in this record model construction from
bytes is total, so the conversion always succeeds.  The `Except` shape
mirrors the call site `msg, _, err = convertMessage(resp)`. -/
def convertMessage (m : NatsMsg) : Except GoError Message :=
  .ok (convertedRecord m)

/-- The processor state (`requestReplyProcessor`): configuration fields
fixed at construction plus the connection handle (`natsConn`, `nil`
modelled as `none`).  TLS and auth material only feed the initial dial and
are abstracted into the dial outcome. -/
structure RequestReplyProcessor where
  label : String
  urls : String
  headers : List (String × InterpolatedString)
  metaFilter : Option MetadataFilter
  subject : InterpolatedString
  inbox : String
  timeout : Int
  natsConn : Option NatsConn

/-- The header-template loop of `Process` (lines 189–195): each value is
evaluated against the record; the first failure aborts with the offending
header name wrapped into the error, otherwise every resolved pair is added
in iteration order. -/
def resolveHeaders (hs : List (String × InterpolatedString)) (msg : Message) :
    Except GoError (List (String × String)) :=
  match hs with
  | [] => .ok []
  | (k, v) :: rest =>
    match v.TryString msg with
    | .error e => .error (.headerInterpolation k e)
    | .ok s =>
      match resolveHeaders rest msg with
      | .error e => .error e
      | .ok tl => .ok ((k, s) :: tl)

/-- The header block of `Process` (lines 188–200): when the connection
supports headers, the explicit templated headers are added first and the
metadata-filter walk adds the selected metadata pairs after them; when the
server lacks header support the whole step is skipped and the header set
stays empty. -/
def outboundHeaders (conn : NatsConn) (r : RequestReplyProcessor)
    (msg : Message) : Except GoError (List (String × String)) :=
  if conn.headersSupported then
    match resolveHeaders r.headers msg with
    | .error e => .error e
    | .ok tpl => .ok (tpl ++ metaFilterWalk r.metaFilter msg)
  else .ok []

/-- The outbound broker message built by `Process`: `nats.NewMsg(subject)`
with the record's bytes as payload and the resolved header set. -/
def builtMsg (subj : String) (msg : Message)
    (hdrs : List (String × String)) : NatsMsg :=
  { subject := subj, data := msg.data, header := hdrs, delivery := none }

/-- Result of one `Process` call: a batch on success, an error, or the
nil-handle dereference that a cleared connection provokes (calling
`HeadersSupported` on a nil `*nats.Conn` dereferences its mutex). -/
inductive ProcResult where
  | ok (batch : List Message)
  | err (e : GoError)
  | nilDeref

/-- Observable outcome of one `Process` call: the message delivered to the
broker, if any, and the returned batch or error. -/
structure ProcOutput where
  sent : Option NatsMsg
  result : ProcResult

/-- `Process` (lines 173–213): resolve the subject template (propagating
its failure), serialise the record, build the outbound message; on a
cleared handle the `HeadersSupported` call dereferences nil; otherwise
resolve headers (only with header support), issue the request under the
derived deadline, and convert a successful reply into the single output
record.  The state is threaded through unchanged — the source assigns no
field of `r`. -/
def RequestReplyProcessor.Process (r : RequestReplyProcessor)
    (ctxRemaining : Option Int) (msg : Message) :
    RequestReplyProcessor × ProcOutput :=
  match r.subject.TryString msg with
  | .error e => (r, ⟨none, .err (.str e)⟩)
  | .ok subj =>
    match r.natsConn with
    | none => (r, ⟨none, .nilDeref⟩)
    | some conn =>
      match outboundHeaders conn r msg with
      | .error e => (r, ⟨none, .err e⟩)
      | .ok hdrs =>
        match requestMsgWithContext conn
            (deriveDeadline ctxRemaining r.timeout) (builtMsg subj msg hdrs) with
        | (sent, .error e) => (r, ⟨sent, .err e⟩)
        | (sent, .ok resp) =>
          match convertMessage resp with
          | .error e => (r, ⟨sent, .err e⟩)
          | .ok outMsg => (r, ⟨sent, .ok [outMsg]⟩)

/-- `Close` (lines 215–224): under the exclusive lock, close the handle if
one is present and clear the stored reference; always returns nil.  The
`Bool` records whether the underlying handle's `Close` was invoked. -/
def RequestReplyProcessor.Close (r : RequestReplyProcessor) :
    RequestReplyProcessor × Bool × Option GoError :=
  match r.natsConn with
  | some _ => ({ r with natsConn := none }, true, none)
  | none => (r, false, none)

/-- The configuration values the schema layer hands to construction
(lines 98–147): extracted field values; TLS and auth material only feed
the dial and are abstracted into the dial outcome. -/
structure ParsedConfig where
  urls : List String
  subject : InterpolatedString
  inbox : Option String
  headers : List (String × InterpolatedString)
  metaFilter : Option MetadataFilter
  timeoutStr : String
  label : String

/-- Leading decimal digits of a character list and the remainder. -/
def spanDigits : List Char → List Char × List Char
  | [] => ([], [])
  | c :: cs =>
    if c.isDigit then
      let p := spanDigits cs
      (c :: p.1, p.2)
    else ([], c :: cs)

/-- Leading non-digit characters (a unit name) and the remainder. -/
def spanUnit : List Char → List Char × List Char
  | [] => ([], [])
  | c :: cs =>
    if c.isDigit then ([], c :: cs)
    else
      let p := spanUnit cs
      (c :: p.1, p.2)

/-- Numeric value of a digit string. -/
def digitsToNat (ds : List Char) : Nat :=
  ds.foldl (fun a c => a * 10 + (c.toNat - 48)) 0

/-- Nanoseconds per duration unit, per the Go time package's unit table. -/
def unitScale (u : String) : Option Nat :=
  if u = "ns" then some 1
  else if u = "us" then some 1000
  else if u = "ms" then some 1000000
  else if u = "s" then some 1000000000
  else if u = "m" then some 60000000000
  else if u = "h" then some 3600000000000
  else none

/-- One pass of the duration grammar: repeated integer+unit groups, summed
in nanoseconds; fuelled recursion (each group consumes at least one
character). -/
def parseGroups : Nat → List Char → Option Nat
  | 0, _ => none
  | _ + 1, [] => some 0
  | fuel + 1, cs =>
    match spanDigits cs with
    | ([], _) => none
    | (ds, r1) =>
      match spanUnit r1 with
      | ([], _) => none
      | (us, r2) =>
        match unitScale (String.mk us) with
        | none => none
        | some scale =>
          match parseGroups fuel r2 with
          | none => none
          | some rest => some (digitsToNat ds * scale + rest)

/-- Modelled from the Go standard library `time.ParseDuration` (an external
collaborator): an optional sign, the special case `0`, then one or more
integer+unit groups (units ns, us, ms, s, m, h) summed in nanoseconds.
Fractional components and the µs spelling are not modelled.  No positivity
check exists: zero and negative durations parse successfully, exactly as
in the library. -/
def parseDuration (s : String) : Except String Int :=
  let cs := s.data
  let sb : Bool × List Char :=
    match cs with
    | '-' :: rest => (true, rest)
    | '+' :: rest => (false, rest)
    | _ => (false, cs)
  if sb.2 = ['0'] then .ok 0
  else if sb.2 = [] then .error ("time: invalid duration " ++ s)
  else
    match parseGroups (sb.2.length + 1) sb.2 with
    | none => .error ("time: invalid duration " ++ s)
    | some n => .ok (if sb.1 then -(n : Int) else (n : Int))

/-- `newRequestReplyProcessor` (lines 98–147): joins the url list, stores
the templates, filter and inbox prefix, parses the timeout string with
`time.ParseDuration` — a parse failure aborts construction, but the parsed
value is stored without any positivity check — and finally dials the
broker (`connect`); a dial failure aborts construction, success stores the
handle. -/
def newRequestReplyProcessor (conf : ParsedConfig)
    (dial : Except GoError NatsConn) :
    Except GoError RequestReplyProcessor :=
  match parseDuration conf.timeoutStr with
  | .error e => .error (.str e)
  | .ok d =>
    match dial with
    | .error e => .error e
    | .ok conn =>
      .ok { label := conf.label
            urls := String.intercalate "," conf.urls
            headers := conf.headers
            metaFilter := conf.metaFilter
            subject := conf.subject
            inbox := conf.inbox.getD ""
            timeout := d
            natsConn := some conn }

/-! ### Concrete demonstration instances -/

/-- A demonstration record carrying a `trace_id` metadata entry. -/
def demoMsg : Message :=
  { data := [104, 105], metadata := [("trace_id", "abc123")] }

/-- A demonstration broker reply carrying delivery metadata. -/
def demoReply : NatsMsg :=
  { subject := "_INBOX.reply", data := [111, 107], header := []
    delivery := some ⟨7, 3, 1, 0, "hub", 1700000000000000000⟩ }

/-- A header-capable connection whose broker answers every request with
`demoReply` after one nanosecond. -/
def demoConn : NatsConn :=
  { headersSupported := true, behavior := fun _ => .replyAt 1 demoReply }

/-- A connection without header support whose broker never replies. -/
def demoSilentConn : NatsConn :=
  { headersSupported := false, behavior := fun _ => .silent }

/-- A fully configured open stage: constant subject, one constant header,
one templated header colliding with the metadata filter selection. -/
def demoState : RequestReplyProcessor :=
  { label := "demo", urls := "nats://127.0.0.1:4222"
    headers := [("Content-Type", fun _ => .ok "application/json"),
                ("trace_id", fun _ => .ok "tpl-value")]
    metaFilter := some (fun k => k == "trace_id")
    subject := fun _ => .ok "orders.42", inbox := ""
    timeout := 3000000000, natsConn := some demoConn }

/-- A stage whose handle is already cleared. -/
def demoClosedState : RequestReplyProcessor :=
  { demoState with natsConn := none }

/-! ### Claims -/

/-- C10: every `Process` call returns the state it was given unchanged —
the connection handle and every configuration field (subject template,
header map, metadata filter, timeout, urls, inbox prefix) are identical
before and after the call; the source assigns no field of `r` inside
`Process`, only `connect` and `Close` write the state. -/
theorem Process_preserves_state (r : RequestReplyProcessor)
    (ctx : Option Int) (msg : Message) :
    (r.Process ctx msg).1 = r := by
  unfold RequestReplyProcessor.Process
  repeat first
  | rfl
  | split

/-- C9: `Close` never fails (the returned error is always nil), always
leaves the stored handle cleared, a second `Close` is a no-op returning
the same state without touching the handle again, and closing an
already-closed stage returns the state unchanged with no error. -/
theorem Close_idempotent (r : RequestReplyProcessor) :
    (r.Close).2.2 = none ∧ (r.Close).1.natsConn = none ∧
      (r.Close).1.Close = ((r.Close).1, false, none) ∧
      (r.natsConn = none → r.Close = (r, false, none)) := by
  cases h : r.natsConn <;>
    simp [RequestReplyProcessor.Close, h]

/-- Witness for C9 at a concrete already-closed stage: closing it again is
a no-op that returns nil. -/
theorem Close_idempotent_witness :
    demoClosedState.Close = (demoClosedState, false, none) :=
  (Close_idempotent demoClosedState).2.2.2 rfl

/-- C5: at the concrete failing input — a stage whose `Close` has just
completed, so the stored handle is cleared — a subsequent `Process` call
evaluates the subject template and then reaches `HeadersSupported` on the
nil handle, dereferencing it (a nil-pointer panic) instead of failing
cleanly with an error. -/
theorem Process_after_Close_nil_deref :
    ((demoState.Close).1.Process none demoMsg).2.result = .nilDeref := rfl

/-- C7 counterexample: construction accepts the timeout string `0s` — it
parses to the zero duration and a stage is successfully constructed whose
stored timeout is 0, not strictly positive. -/
def zeroTimeoutConf : ParsedConfig :=
  { urls := ["nats://127.0.0.1:4222"], subject := fun _ => .ok "orders.42"
    inbox := none, headers := [], metaFilter := none
    timeoutStr := "0s", label := "demo" }

/-- C7 counterexample: a configuration whose timeout string parses to the
zero duration still produces a constructed stage, and the stage's stored
timeout is 0. -/
theorem zero_timeout_constructs :
    (newRequestReplyProcessor zeroTimeoutConf
        (.ok demoSilentConn)).toOption.map (fun st => st.timeout) =
      some 0 := rfl

/-- C7 (amended): a successfully constructed stage stores exactly the
duration its timeout string parses to — a malformed timeout string aborts
construction, but no positivity check exists, so zero and negative parsed
durations are accepted and stored. -/
theorem construction_timeout_eq_parsed (conf : ParsedConfig)
    (dial : Except GoError NatsConn) (st : RequestReplyProcessor)
    (h : newRequestReplyProcessor conf dial = .ok st) :
    parseDuration conf.timeoutStr = .ok st.timeout := by
  unfold newRequestReplyProcessor at h
  cases hp : parseDuration conf.timeoutStr with
  | error e => simp only [hp] at h; cases h
  | ok d =>
    simp only [hp] at h
    cases dial with
    | error e => cases h
    | ok conn => cases h; rfl

/-- The configuration of `zeroTimeoutConf` with the default `3s` timeout. -/
def threeSecondConf : ParsedConfig :=
  { zeroTimeoutConf with timeoutStr := "3s" }

/-- The stage `threeSecondConf` constructs. -/
def threeSecondState : RequestReplyProcessor :=
  { label := "demo", urls := "nats://127.0.0.1:4222", headers := []
    metaFilter := none, subject := zeroTimeoutConf.subject, inbox := ""
    timeout := 3000000000, natsConn := some demoSilentConn }

/-- Witness for the amended C7 at a concrete configuration: `3s` parses to
3000000000 ns, which is exactly the constructed stage's stored timeout. -/
theorem construction_timeout_eq_parsed_witness :
    parseDuration "3s" = .ok 3000000000 :=
  construction_timeout_eq_parsed threeSecondConf (.ok demoSilentConn)
    threeSecondState rfl

/-- The subject of the outbound message builder. -/
theorem builtMsg_subject (subj : String) (msg : Message)
    (hdrs : List (String × String)) :
    (builtMsg subj msg hdrs).subject = subj := rfl

/-- The header set of the outbound message builder. -/
theorem builtMsg_header (subj : String) (msg : Message)
    (hdrs : List (String × String)) :
    (builtMsg subj msg hdrs).header = hdrs := rfl

/-- Splitting the header loop: once a prefix of the header map resolves
successfully, resolving the whole map resolves the remainder and prepends
the prefix's resolved pairs. -/
theorem resolveHeaders_append (pre xs : List (String × InterpolatedString))
    (msg : Message) (l : List (String × String))
    (h : resolveHeaders pre msg = .ok l) :
    resolveHeaders (pre ++ xs) msg =
      (resolveHeaders xs msg).map (fun tl => l ++ tl) := by
  induction pre generalizing l with
  | nil =>
    simp only [resolveHeaders] at h
    cases h
    cases hx : resolveHeaders xs msg <;> simp [Except.map, hx]
  | cons hd tl ih =>
    obtain ⟨k, v⟩ := hd
    cases hv : v.TryString msg with
    | error e => simp only [resolveHeaders, hv] at h; cases h
    | ok s =>
      cases hrest : resolveHeaders tl msg with
      | error e => simp only [resolveHeaders, hv, hrest] at h; cases h
      | ok lt =>
        simp only [resolveHeaders, hv, hrest] at h
        cases h
        have hmid := ih lt hrest
        simp only [List.cons_append, resolveHeaders, hv, List.append_eq]
        rw [hmid]
        cases hx : resolveHeaders xs msg <;> simp [Except.map, hx]

/-- C1: when the subject template evaluates successfully, the header set
resolves successfully and the request call returns a reply before the
deadline, `Process` returns exactly one output record — the converted
reply — replacing the input record; success never yields zero or more
than one record. -/
theorem Process_reply_single_output (r : RequestReplyProcessor)
    (conn : NatsConn) (ctx : Option Int) (msg : Message) (subj : String)
    (hdrs : List (String × String)) (reply : NatsMsg)
    (hc : r.natsConn = some conn)
    (hs : r.subject.TryString msg = .ok subj)
    (hh : outboundHeaders conn r msg = .ok hdrs)
    (hr : (requestMsgWithContext conn (deriveDeadline ctx r.timeout)
        (builtMsg subj msg hdrs)).2 = .ok reply) :
    (r.Process ctx msg).2.result = .ok [convertedRecord reply] := by
  rcases hq : requestMsgWithContext conn (deriveDeadline ctx r.timeout)
      (builtMsg subj msg hdrs) with ⟨sent, res⟩
  rw [hq] at hr
  simp only at hr
  subst hr
  simp [RequestReplyProcessor.Process, hs, hc, hh, hq, convertMessage]

/-- Witness for C1: the demonstration stage receives `demoReply` after one
nanosecond, well before the three-second deadline, and returns exactly the
one converted record. -/
theorem Process_reply_single_output_witness :
    (demoState.Process none demoMsg).2.result =
      .ok [convertedRecord demoReply] :=
  Process_reply_single_output demoState demoConn none demoMsg "orders.42"
    [("Content-Type", "application/json"), ("trace_id", "tpl-value"),
     ("trace_id", "abc123")] demoReply rfl rfl rfl rfl

/-- C2: when the derived deadline (the configured timeout intersected with
the incoming context's remaining time) elapses before any reply — the
broker stays silent or would only answer at or after the deadline —
`Process` fails with the timeout error and produces no output record. -/
theorem Process_timeout_no_output (r : RequestReplyProcessor)
    (conn : NatsConn) (ctx : Option Int) (msg : Message) (subj : String)
    (hdrs : List (String × String))
    (hc : r.natsConn = some conn)
    (hs : r.subject.TryString msg = .ok subj)
    (hne : subj ≠ "")
    (hh : outboundHeaders conn r msg = .ok hdrs)
    (hlate : ∀ t reply, conn.behavior (builtMsg subj msg hdrs) =
        .replyAt t reply → deriveDeadline ctx r.timeout ≤ (t : Int))
    (hnc : ∀ e, conn.behavior (builtMsg subj msg hdrs) ≠ .connErr e) :
    (r.Process ctx msg).2.result = .err .deadlineExceeded := by
  simp only [RequestReplyProcessor.Process, hs, hc, hh]
  cases hb : conn.behavior (builtMsg subj msg hdrs) with
  | replyAt t reply =>
    have hge := hlate t reply hb
    have hnlt : ¬ ((t : Int) < deriveDeadline ctx r.timeout) := not_lt.mpr hge
    simp [requestMsgWithContext, builtMsg_subject, hne, hb, hnlt]
  | silent => simp [requestMsgWithContext, builtMsg_subject, hne, hb]
  | connErr e => exact absurd hb (hnc e)

/-- The demonstration stage connected to a broker that never replies. -/
def demoTimeoutState : RequestReplyProcessor :=
  { demoState with natsConn := some demoSilentConn }

/-- Witness for C2: against the never-replying broker the demonstration
stage times out and returns no record. -/
theorem Process_timeout_no_output_witness :
    (demoTimeoutState.Process none demoMsg).2.result =
      .err .deadlineExceeded :=
  Process_timeout_no_output demoTimeoutState demoSilentConn none demoMsg
    "orders.42" [] rfl rfl (by decide) rfl
    (fun t reply h => nomatch h) (fun e h => nomatch h)

/-- C3: on a header-supporting connection, the outbound message's header
set is exactly the resolved templated headers followed by the
metadata-filter selection — so a templated header and a metadata-selected
entry sharing the same name are both present (nothing is overwritten),
with every templated header added before every metadata-derived one. -/
theorem Process_header_order (r : RequestReplyProcessor) (conn : NatsConn)
    (ctx : Option Int) (msg : Message) (subj : String)
    (tpl : List (String × String)) (k v1 v2 : String)
    (hc : r.natsConn = some conn)
    (hsup : conn.headersSupported = true)
    (hs : r.subject.TryString msg = .ok subj)
    (hne : subj ≠ "")
    (ht : resolveHeaders r.headers msg = .ok tpl)
    (h1 : (k, v1) ∈ tpl)
    (h2 : (k, v2) ∈ metaFilterWalk r.metaFilter msg) :
    (r.Process ctx msg).2.sent =
        some (builtMsg subj msg (tpl ++ metaFilterWalk r.metaFilter msg)) ∧
      (k, v1) ∈ (builtMsg subj msg
        (tpl ++ metaFilterWalk r.metaFilter msg)).header ∧
      (k, v2) ∈ (builtMsg subj msg
        (tpl ++ metaFilterWalk r.metaFilter msg)).header := by
  have hh : outboundHeaders conn r msg =
      .ok (tpl ++ metaFilterWalk r.metaFilter msg) := by
    simp [outboundHeaders, hsup, ht]
  refine ⟨?_, ?_, ?_⟩
  · simp only [RequestReplyProcessor.Process, hs, hc, hh]
    cases hb : conn.behavior
        (builtMsg subj msg (tpl ++ metaFilterWalk r.metaFilter msg)) with
    | replyAt t reply =>
      by_cases hlt : (t : Int) < deriveDeadline ctx r.timeout <;>
        simp [requestMsgWithContext, builtMsg_subject, hne, hb, hlt,
          convertMessage]
    | silent => simp [requestMsgWithContext, builtMsg_subject, hne, hb]
    | connErr e => simp [requestMsgWithContext, builtMsg_subject, hne, hb]
  · rw [builtMsg_header]
    exact List.mem_append_left _ h1
  · rw [builtMsg_header]
    exact List.mem_append_right _ h2

/-- Witness for C3: on the demonstration stage the explicit `trace_id`
template and the metadata-selected `trace_id` both end up in the outbound
header set, templated value first. -/
theorem Process_header_order_witness :
    (demoState.Process none demoMsg).2.sent =
        some (builtMsg "orders.42" demoMsg
          ([("Content-Type", "application/json"), ("trace_id", "tpl-value")] ++
            [("trace_id", "abc123")])) ∧
      ("trace_id", "tpl-value") ∈ (builtMsg "orders.42" demoMsg
        ([("Content-Type", "application/json"), ("trace_id", "tpl-value")] ++
          [("trace_id", "abc123")])).header ∧
      ("trace_id", "abc123") ∈ (builtMsg "orders.42" demoMsg
        ([("Content-Type", "application/json"), ("trace_id", "tpl-value")] ++
          [("trace_id", "abc123")])).header :=
  Process_header_order demoState demoConn none demoMsg "orders.42"
    [("Content-Type", "application/json"), ("trace_id", "tpl-value")]
    "trace_id" "tpl-value" "abc123" rfl rfl rfl (by decide) rfl
    (by decide) (by decide)

/-- C4: when the connected broker reports no header support, the entire
header step is skipped — any message delivered to the broker carries an
empty header set, and no header-template evaluation failure is ever
surfaced, whatever the configured header templates are. -/
theorem Process_no_header_support (r : RequestReplyProcessor)
    (conn : NatsConn) (ctx : Option Int) (msg : Message)
    (hc : r.natsConn = some conn)
    (hns : conn.headersSupported = false) :
    (∀ m, (r.Process ctx msg).2.sent = some m → m.header = []) ∧
      ∀ k e, (r.Process ctx msg).2.result ≠
        .err (.headerInterpolation k e) := by
  have hh : outboundHeaders conn r msg = .ok [] := by
    simp [outboundHeaders, hns]
  cases hsub : r.subject.TryString msg with
  | error e => simp [RequestReplyProcessor.Process, hsub]
  | ok subj =>
    simp only [RequestReplyProcessor.Process, hsub, hc, hh]
    by_cases hse : subj = ""
    · simp [requestMsgWithContext, builtMsg_subject, hse]
    · cases hb : conn.behavior (builtMsg subj msg []) with
      | replyAt t reply =>
        by_cases hlt : (t : Int) < deriveDeadline ctx r.timeout <;>
          simp [requestMsgWithContext, builtMsg_subject, builtMsg_header,
            hse, hb, hlt, convertMessage]
      | silent =>
        simp [requestMsgWithContext, builtMsg_subject, builtMsg_header,
          hse, hb]
      | connErr e =>
        simp [requestMsgWithContext, builtMsg_subject, builtMsg_header,
          hse, hb]

/-- The demonstration stage on a header-less connection with a header
template that always fails to evaluate. -/
def demoNoHdrState : RequestReplyProcessor :=
  { demoState with
    headers := [("X-Fail", fun _ => .error "boom")],
    natsConn := some demoSilentConn }

/-- Witness for C4: on the header-less connection the delivered message has
no headers and the always-failing header template is never surfaced. -/
theorem Process_no_header_support_witness :
    (builtMsg "orders.42" demoMsg []).header = [] ∧
      (demoNoHdrState.Process none demoMsg).2.result ≠
        .err (.headerInterpolation "X-Fail" "boom") :=
  ⟨(Process_no_header_support demoNoHdrState demoSilentConn none demoMsg
      rfl rfl).1 (builtMsg "orders.42" demoMsg []) rfl,
    (Process_no_header_support demoNoHdrState demoSilentConn none demoMsg
      rfl rfl).2 "X-Fail" "boom"⟩

/-- C6: a `Process` call that succeeds evaluated its subject template to a
non-empty string, and no message with an empty subject is ever delivered
to the broker — an empty resolved subject is rejected (by the client's
publish-time validation) before any send. -/
theorem Process_subject_nonempty (r : RequestReplyProcessor)
    (ctx : Option Int) (msg : Message) :
    (∀ batch, (r.Process ctx msg).2.result = .ok batch →
        ∃ subj, r.subject.TryString msg = .ok subj ∧ subj ≠ "") ∧
      ∀ m, (r.Process ctx msg).2.sent = some m → m.subject ≠ "" := by
  cases hsub : r.subject.TryString msg with
  | error e => simp [RequestReplyProcessor.Process, hsub]
  | ok subj =>
    cases hc : r.natsConn with
    | none => simp [RequestReplyProcessor.Process, hsub, hc]
    | some conn =>
      cases hh : outboundHeaders conn r msg with
      | error e => simp [RequestReplyProcessor.Process, hsub, hc, hh]
      | ok hdrs =>
        simp only [RequestReplyProcessor.Process, hsub, hc, hh]
        by_cases hse : subj = ""
        · simp [requestMsgWithContext, builtMsg_subject, hse]
        · cases hb : conn.behavior (builtMsg subj msg hdrs) with
          | replyAt t reply =>
            by_cases hlt : (t : Int) < deriveDeadline ctx r.timeout <;>
              simp [requestMsgWithContext, builtMsg_subject, hse, hsub, hb,
                hlt, convertMessage]
          | silent =>
            simp [requestMsgWithContext, builtMsg_subject, hse, hb]
          | connErr e =>
            simp [requestMsgWithContext, builtMsg_subject, hse, hb]

/-- Witness for C6: the message the demonstration stage delivers to the
broker has the non-empty subject the template resolved to. -/
theorem Process_subject_nonempty_witness :
    (builtMsg "orders.42" demoMsg
        [("Content-Type", "application/json"), ("trace_id", "tpl-value"),
         ("trace_id", "abc123")]).subject ≠ "" :=
  (Process_subject_nonempty demoState none demoMsg).2
    (builtMsg "orders.42" demoMsg
      [("Content-Type", "application/json"), ("trace_id", "tpl-value"),
       ("trace_id", "abc123")]) rfl

/-- C8: on a header-supporting connection, the first header template whose
evaluation fails aborts processing of that record with an error naming the
offending header; no output record is produced and nothing is sent to the
broker. -/
theorem Process_header_failure (r : RequestReplyProcessor) (conn : NatsConn)
    (ctx : Option Int) (msg : Message) (subj : String)
    (pre rest : List (String × InterpolatedString)) (k : String)
    (tf : InterpolatedString) (e : String) (l : List (String × String))
    (hc : r.natsConn = some conn)
    (hsup : conn.headersSupported = true)
    (hs : r.subject.TryString msg = .ok subj)
    (hsplit : r.headers = pre ++ (k, tf) :: rest)
    (hpre : resolveHeaders pre msg = .ok l)
    (hfail : tf.TryString msg = .error e) :
    (r.Process ctx msg).2 =
      ⟨none, .err (.headerInterpolation k e)⟩ := by
  have hres : resolveHeaders r.headers msg =
      .error (.headerInterpolation k e) := by
    rw [hsplit, resolveHeaders_append pre _ msg l hpre]
    simp [resolveHeaders, hfail, Except.map]
  have hh : outboundHeaders conn r msg =
      .error (.headerInterpolation k e) := by
    simp [outboundHeaders, hsup, hres]
  simp [RequestReplyProcessor.Process, hs, hc, hh]

/-- The demonstration stage with a single header template that always
fails, on the header-capable connection. -/
def demoBadHdrState : RequestReplyProcessor :=
  { demoState with headers := [("X-Bad", fun _ => .error "boom")] }

/-- Witness for C8: the failing `X-Bad` header template aborts the record
with an error naming it, no request reaching the broker. -/
theorem Process_header_failure_witness :
    (demoBadHdrState.Process none demoMsg).2 =
      ⟨none, .err (.headerInterpolation "X-Bad" "boom")⟩ :=
  Process_header_failure demoBadHdrState demoConn none demoMsg "orders.42"
    [] [] "X-Bad" (fun _ => .error "boom") "boom" [] rfl rfl rfl rfl rfl rfl
